import Mathlib

/-!
Verification of the System-Monitor program (src/src/main.rs): a shallow
embedding of its threshold classifier, alert logger, progress-bar renderer,
dashboard sections, monitor loop, and configuration round-trip, together
with theorems settling the specification claims.

Modelling conventions:
- Rust `f32` percentages and thresholds are embedded as exact rationals `ℚ`;
  all comparisons in the source are plain `>=` comparisons, which `ℚ` mirrors.
- Rust `u64`/`usize` counters are embedded as `ℕ`.
- Side effects (file appends, the `warn!` diagnostic channel) are embedded as
  explicit data returned by the functions that perform them.
- A Rust function that can panic (the unsigned subtraction in
  `create_progress_bar`) returns `Option`, with `none` for the panic.
-/

namespace SystemMonitor

/-- The `[general]` configuration section (struct `GeneralConfig`). -/
structure GeneralConfig where
  refresh_interval : ℕ
  log_alerts : Bool
  log_file : String
deriving DecidableEq, Repr

/-- The `[display]` configuration section (struct `DisplayConfig`). -/
structure DisplayConfig where
  show_progress_bars : Bool
  use_colors : Bool
  show_per_core_cpu : Bool
  max_processes_to_display : ℕ
deriving DecidableEq, Repr

/-- The `[thresholds]` configuration section (struct `ThresholdsConfig`). -/
structure ThresholdsConfig where
  cpu_warning : ℚ
  cpu_critical : ℚ
  memory_warning : ℚ
  memory_critical : ℚ
  disk_warning : ℚ
  disk_critical : ℚ
  swap_warning : ℚ
  swap_critical : ℚ
deriving DecidableEq, Repr

/-- The `[alerts]` configuration section (struct `AlertsConfig`). -/
structure AlertsConfig where
  enable_desktop_notifications : Bool
  enable_email_alerts : Bool
  enable_sound_alerts : Bool
deriving DecidableEq, Repr

/-- The whole configuration (struct `Config`). -/
structure Config where
  general : GeneralConfig
  display : DisplayConfig
  thresholds : ThresholdsConfig
  alerts : AlertsConfig
deriving DecidableEq, Repr

/-- The default configuration (`impl Default for Config`). -/
def Config.default : Config :=
  ⟨⟨30, true, "system_monitor.log"⟩,
   ⟨true, true, true, 10⟩,
   ⟨70, 90, 70, 90, 70, 90, 70, 90⟩,
   ⟨false, false, false⟩⟩

/-- The subset of `colored::Color` the program uses. -/
inductive Color where
  | White : Color
  | Red : Color
  | Yellow : Color
  | Green : Color
deriving DecidableEq, Repr

/-- Embedding of `get_usage_color` (main.rs lines 143-160). -/
def get_usage_color (usage warning_threshold critical_threshold : ℚ)
    (use_colors : Bool) : Color :=
  if !use_colors then Color.White
  else if critical_threshold ≤ usage then Color.Red
  else if warning_threshold ≤ usage then Color.Yellow
  else Color.Green

/-- The three classification buckets of the spec. -/
inductive Classification where
  | Normal : Classification
  | Warning : Classification
  | Critical : Classification
deriving DecidableEq, Repr

/-- The classification computed by the program, read off from the color branch
structure shared by `get_usage_color` and `check_and_alert`
(Red = Critical, Yellow = Warning, Green = Normal). -/
def classification (value warning critical : ℚ) : Classification :=
  match get_usage_color value warning critical true with
  | Color.Red => Classification.Critical
  | Color.Yellow => Classification.Warning
  | _ => Classification.Normal

/-- Decimal digits of a natural number, most significant first, with explicit
fuel so that the definition reduces in the kernel (the fuel `n + 1` always
suffices). Models Rust's decimal `Display` for unsigned integers. -/
def natCharsAux : ℕ → ℕ → List Char
  | 0, _ => []
  | fuel + 1, n =>
    if n < 10 then [Nat.digitChar n]
    else natCharsAux fuel (n / 10) ++ [Nat.digitChar (n % 10)]

/-- Decimal digit string of a natural number. -/
def natChars (n : ℕ) : List Char :=
  natCharsAux (n + 1) n

/-- Embedding of Rust's `{:.1}` float formatting: the value rounded to one
decimal place, rendered as `<int part>.<one digit>` with a leading minus sign
for negative values. (Rust rounds ties to even; no claim depends on ties, and
the embedding rounds ties up.) -/
def fmt1 (q : ℚ) : String :=
  let sign : String := if q < 0 then "-" else ""
  let t : ℕ := (⌊|q| * 10 + 1 / 2⌋).toNat
  sign ++ String.mk (natChars (t / 10)) ++ "." ++ String.mk [Nat.digitChar (t % 10)]

/-- Embedding of Rust's `{:>6}` right alignment in a 6-character field. -/
def pad6 (s : String) : String :=
  String.mk (List.replicate (6 - s.length) ' ') ++ s

/-- The `filled_length` computation of `create_progress_bar` (line 168):
`(usage / 100.0 * width as f32) as usize` with `width = 20`; the `as usize`
cast truncates toward zero and saturates at zero for negative values. -/
def filled_length (usage : ℚ) : ℕ :=
  (⌊usage / 100 * 20⌋).toNat

/-- ANSI code emitted by the `colored` crate for each color the program uses. -/
def color_code : Color → String
  | Color.White => "\x1b[37m"
  | Color.Red => "\x1b[31m"
  | Color.Yellow => "\x1b[33m"
  | Color.Green => "\x1b[32m"

/-- Embedding of `str.color(c)` from the `colored` crate: the text wrapped in
the color's ANSI escape and the reset escape. -/
def colorize (c : Color) (s : String) : String :=
  color_code c ++ s ++ "\x1b[0m"

/-- Embedding of `create_progress_bar` (main.rs lines 162-174). The colored
branch computes `empty_length = width - filled_length` on `usize`; when
`filled_length > width` that unsigned subtraction underflows and the program
panics, embedded here as `none`. -/
def create_progress_bar (usage warning critical : ℚ) (use_colors : Bool) :
    Option String :=
  if !use_colors then
    some ("[" ++ pad6 (fmt1 usage) ++ "%]")
  else
    let width : ℕ := 20
    if filled_length usage ≤ width then
      let empty_length := width - filled_length usage
      let color := get_usage_color usage warning critical use_colors
      let bar := String.mk (List.replicate (filled_length usage) '#') ++
        String.mk (List.replicate empty_length '-')
      some ("[" ++ colorize color bar ++ "] " ++ pad6 (fmt1 usage) ++ "%")
    else
      none

/-- Number of occurrences of a character in a string. -/
def countChar (s : String) (c : Char) : ℕ :=
  s.data.count c

/-- The observable effects of one `log_alert` call: the `(path, line)` pairs
appended to the alert log file, and the messages sent to the `warn!` runtime
diagnostic channel. -/
structure LogEffect where
  fileAppends : List (String × String)
  warnings : List String
deriving DecidableEq, Repr

/-- The effect of a call that logs nothing. -/
def emptyEffect : LogEffect := ⟨[], []⟩

/-- Embedding of `log_alert` (main.rs lines 176-192). The wall-clock timestamp
is passed in as `ts`. The file append happens only under the
`general.log_alerts` toggle; the `warn!` emission is unconditional. -/
def log_alert (message : String) (config : Config) (ts : String) : LogEffect :=
  ⟨if config.general.log_alerts then
      [(config.general.log_file, "[" ++ ts ++ "] ALERT: " ++ message ++ "\n")]
    else [],
   [message]⟩

/-- The critical-severity alert message format of `check_and_alert`. -/
def criticalMessage (name : String) (usage : ℚ) : String :=
  name ++ " usage is critical: " ++ fmt1 usage ++ "%"

/-- The warning-severity ("high") alert message format of `check_and_alert`. -/
def highMessage (name : String) (usage : ℚ) : String :=
  name ++ " usage is high: " ++ fmt1 usage ++ "%"

/-- Embedding of `check_and_alert` (main.rs lines 194-202). -/
def check_and_alert (name : String) (usage warning critical : ℚ)
    (config : Config) (ts : String) : LogEffect :=
  if critical ≤ usage then log_alert (criticalMessage name usage) config ts
  else if warning ≤ usage then log_alert (highMessage name usage) config ts
  else emptyEffect

/-- What the swap section of `display_system_info` produces: whether
`check_and_alert` was invoked at all, its effects, and the rendered line. -/
structure SwapView where
  checked : Bool
  alerts : LogEffect
  line : Option String
deriving DecidableEq, Repr

/-- Embedding of the swap section of `display_system_info`
(main.rs lines 305-333): the usage is `used / total * 100` guarded by
`total_swap > 0`; the alert check and the bar render happen only when
`total_swap > 0`, otherwise the literal "Not Available" line is printed. -/
def swap_section (total_swap used_swap : ℕ) (config : Config) (ts : String) :
    SwapView :=
  let swap_usage : ℚ :=
    if 0 < total_swap then (used_swap : ℚ) / (total_swap : ℚ) * 100 else 0
  if 0 < total_swap then
    ⟨true,
     check_and_alert "Swap" swap_usage config.thresholds.swap_warning
       config.thresholds.swap_critical config ts,
     (create_progress_bar swap_usage config.thresholds.swap_warning
       config.thresholds.swap_critical config.display.use_colors).map
       (fun bar => "Swap Usage: " ++ bar)⟩
  else
    ⟨false, emptyEffect, some "Swap Usage: Not Available"⟩

/-- Embedding of the per-disk usage computation of `display_system_info`
(main.rs lines 337-345): `used = total - available` and
`usage = used / total * 100` guarded by `total_space > 0`. The subtraction is
taken in `ℚ`, which agrees with the `u64` subtraction whenever
`available_space ≤ total_space` (the provider invariant); the branch guarded
by `total_space > 0` never evaluates the quotient when the total is zero. -/
def disk_usage (total_space available_space : ℕ) : ℚ :=
  let used_space : ℚ := (total_space : ℚ) - (available_space : ℚ)
  if 0 < total_space then used_space / (total_space : ℚ) * 100 else 0

/-- One entry of the provider's process list. -/
structure ProcessInfo where
  pid : ℕ
  name : String
  cpu_usage : ℚ
  memory : ℕ
deriving DecidableEq, Repr

/-- The comparator under which `processes.sort_by(|a, b|
b.cpu_usage().partial_cmp(&a.cpu_usage()).unwrap())` sorts: `a` may precede
`b` exactly when `b`'s CPU usage is at most `a`'s (descending CPU order). -/
def processLE (a b : ProcessInfo) : Bool :=
  decide (b.cpu_usage ≤ a.cpu_usage)

/-- The process list after the `sort_by` call of `display_system_info`
(main.rs line 376). Rust's `sort_by` is a stable sort; `List.mergeSort` is the
stable sort of the Lean library. -/
def sorted_processes (procs : List ProcessInfo) : List ProcessInfo :=
  procs.mergeSort processLE

/-- The rows rendered by the top-processes section (main.rs lines 375-393):
the sorted list truncated by `.take(config.display.max_processes_to_display)`. -/
def top_processes (procs : List ProcessInfo) (maxN : ℕ) : List ProcessInfo :=
  (sorted_processes procs).take maxN

/-- One observable step of `run_monitor`: a provider refresh
(`sys.refresh_all()` and `disks.refresh()`), one `display_system_info` call
(the classify/alert pass and the dashboard render), or a sleep of the given
number of seconds. -/
inductive MonitorEvent where
  | refresh : MonitorEvent
  | display : MonitorEvent
  | sleep : ℕ → MonitorEvent
deriving DecidableEq, Repr

/-- Embedding of `run_monitor` (main.rs lines 418-434) as the trace of events
the loop performs. The loop itself is infinite when `once` is false, so the
trace is truncated by a fuel bound on the number of iterations; when `once` is
true the loop breaks before the sleep, independent of the fuel. -/
def run_monitor (config : Config) (once : Bool) : ℕ → List MonitorEvent
  | 0 => []
  | fuel + 1 =>
    MonitorEvent.refresh :: MonitorEvent.display ::
      (if once then []
       else MonitorEvent.sleep config.general.refresh_interval ::
         run_monitor config once fuel)

/-- Modelled from the spec: TOML boolean rendering used by the external
`toml` serializer (section 6 of the spec: bools in the configuration file). -/
def boolToToml (b : Bool) : String :=
  if b then "true" else "false"

/-- Modelled from the spec: TOML float rendering used by the external `toml`
serializer for threshold values (spec section 6: `float 0-100`). Exact for
whole-numbered values — the only float values the default configuration
contains — which render as `d.0`. -/
def qToToml (q : ℚ) : String :=
  (if q.num < 0 then "-" else "") ++ String.mk (natChars q.num.natAbs) ++ ".0"

/-- Modelled from the spec: the file text written by `generate_config`
(main.rs lines 136-141), i.e. `toml::to_string_pretty` of a configuration —
four bracketed sections in declaration order, one `key = value` line per
field (spec section 6). -/
def configToToml (c : Config) : String :=
  "[general]\n" ++
  "refresh_interval = " ++ String.mk (natChars c.general.refresh_interval) ++ "\n" ++
  "log_alerts = " ++ boolToToml c.general.log_alerts ++ "\n" ++
  "log_file = \"" ++ c.general.log_file ++ "\"\n" ++
  "\n" ++
  "[display]\n" ++
  "show_progress_bars = " ++ boolToToml c.display.show_progress_bars ++ "\n" ++
  "use_colors = " ++ boolToToml c.display.use_colors ++ "\n" ++
  "show_per_core_cpu = " ++ boolToToml c.display.show_per_core_cpu ++ "\n" ++
  "max_processes_to_display = " ++ String.mk (natChars c.display.max_processes_to_display) ++ "\n" ++
  "\n" ++
  "[thresholds]\n" ++
  "cpu_warning = " ++ qToToml c.thresholds.cpu_warning ++ "\n" ++
  "cpu_critical = " ++ qToToml c.thresholds.cpu_critical ++ "\n" ++
  "memory_warning = " ++ qToToml c.thresholds.memory_warning ++ "\n" ++
  "memory_critical = " ++ qToToml c.thresholds.memory_critical ++ "\n" ++
  "disk_warning = " ++ qToToml c.thresholds.disk_warning ++ "\n" ++
  "disk_critical = " ++ qToToml c.thresholds.disk_critical ++ "\n" ++
  "swap_warning = " ++ qToToml c.thresholds.swap_warning ++ "\n" ++
  "swap_critical = " ++ qToToml c.thresholds.swap_critical ++ "\n" ++
  "\n" ++
  "[alerts]\n" ++
  "enable_desktop_notifications = " ++ boolToToml c.alerts.enable_desktop_notifications ++ "\n" ++
  "enable_email_alerts = " ++ boolToToml c.alerts.enable_email_alerts ++ "\n" ++
  "enable_sound_alerts = " ++ boolToToml c.alerts.enable_sound_alerts ++ "\n"

/-- Split a character list at every occurrence of a separator character. -/
def splitOnChar (sep : Char) : List Char → List (List Char)
  | [] => [[]]
  | c :: rest =>
    let r := splitOnChar sep rest
    if c = sep then [] :: r
    else
      match r with
      | [] => [[c]]
      | h :: t => (c :: h) :: t

/-- Remove leading and trailing spaces. -/
def trimSpaces (cs : List Char) : List Char :=
  ((cs.dropWhile (fun c => c = ' ')).reverse.dropWhile (fun c => c = ' ')).reverse

/-- The value of a decimal digit character. -/
def digitVal (c : Char) : Option ℕ :=
  if 48 ≤ c.toNat ∧ c.toNat ≤ 57 then some (c.toNat - 48) else none

/-- Parse a nonempty all-digit character list as a natural number. -/
def natFromChars (cs : List Char) : Option ℕ :=
  match cs with
  | [] => none
  | _ =>
    cs.foldl
      (fun acc c =>
        match acc, digitVal c with
        | some a, some d => some (a * 10 + d)
        | _, _ => none)
      (some 0)

/-- Modelled from the spec: TOML boolean value parsing by the external `toml`
deserializer. -/
def parseTomlBool (cs : List Char) : Option Bool :=
  if cs = "true".data then some true
  else if cs = "false".data then some false
  else none

/-- Modelled from the spec: TOML basic string value parsing (a quoted path;
the generated file contains no escape sequences). -/
def parseTomlString (cs : List Char) : Option String :=
  if 2 ≤ cs.length ∧ cs.head? = some '"' ∧ cs.getLast? = some '"' then
    some (String.mk ((cs.drop 1).dropLast))
  else none

/-- Modelled from the spec: TOML float value parsing (`<digits>.<digits>`,
optionally signed) into an exact rational. -/
def parseTomlFloat (cs : List Char) : Option ℚ :=
  let neg : Bool := cs.head? = some '-'
  let body := if neg then cs.drop 1 else cs
  match splitOnChar '.' body with
  | [ip, fp] =>
    match natFromChars ip, natFromChars fp with
    | some i, some f =>
      let q : ℚ := mkRat (i * 10 ^ fp.length + f) (10 ^ fp.length)
      some (if neg then -q else q)
    | _, _ => none
  | _ => none

/-- Modelled from the spec: the section/key assignment structure of a TOML
document (spec section 6) — a fold over the lines tracking the current
bracketed section, collecting `(section.key, raw value)` pairs. -/
def parseAssignments (lines : List (List Char)) : List (List Char × List Char) :=
  (lines.foldl
    (fun st line =>
      let t := trimSpaces line
      match t with
      | [] => st
      | c :: _ =>
        if c = '[' then ((trimSpaces ((t.drop 1).dropLast)), st.2)
        else
          match splitOnChar '=' t with
          | [k, v] => (st.1, st.2 ++ [(st.1 ++ '.' :: trimSpaces k, trimSpaces v)])
          | _ => st)
    (([], []) : List Char × List (List Char × List Char))).2

/-- Look up the raw value of a dotted `section.key` name. -/
def lookupKey (kvs : List (List Char × List Char)) (k : String) :
    Option (List Char) :=
  (kvs.find? (fun p => decide (p.1 = k.data))).map Prod.snd

/-- Modelled from the spec: deserialization of the `[general]` section
(spec section 6). -/
def parseGeneralSection (kvs : List (List Char × List Char)) :
    Option GeneralConfig :=
  match lookupKey kvs "general.refresh_interval" >>= natFromChars,
      lookupKey kvs "general.log_alerts" >>= parseTomlBool,
      lookupKey kvs "general.log_file" >>= parseTomlString with
  | some ri, some la, some lf => some ⟨ri, la, lf⟩
  | _, _, _ => none

/-- Modelled from the spec: deserialization of the `[display]` section
(spec section 6). -/
def parseDisplaySection (kvs : List (List Char × List Char)) :
    Option DisplayConfig :=
  match lookupKey kvs "display.show_progress_bars" >>= parseTomlBool,
      lookupKey kvs "display.use_colors" >>= parseTomlBool,
      lookupKey kvs "display.show_per_core_cpu" >>= parseTomlBool,
      lookupKey kvs "display.max_processes_to_display" >>= natFromChars with
  | some spb, some uc, some spc, some mpd => some ⟨spb, uc, spc, mpd⟩
  | _, _, _, _ => none

/-- Modelled from the spec: deserialization of the warning/critical pair of
one metric category in the `[thresholds]` section (spec section 6). -/
def parseThresholdPair (kvs : List (List Char × List Char))
    (wname cname : String) : Option (ℚ × ℚ) :=
  match lookupKey kvs wname >>= parseTomlFloat,
      lookupKey kvs cname >>= parseTomlFloat with
  | some w, some c => some (w, c)
  | _, _ => none

/-- Modelled from the spec: deserialization of the `[thresholds]` section
(spec section 6: one warning/critical pair per metric category). -/
def parseThresholdsSection (kvs : List (List Char × List Char)) :
    Option ThresholdsConfig :=
  match parseThresholdPair kvs "thresholds.cpu_warning" "thresholds.cpu_critical",
      parseThresholdPair kvs "thresholds.memory_warning" "thresholds.memory_critical",
      parseThresholdPair kvs "thresholds.disk_warning" "thresholds.disk_critical",
      parseThresholdPair kvs "thresholds.swap_warning" "thresholds.swap_critical" with
  | some cpu, some mem, some dsk, some swp =>
    some ⟨cpu.1, cpu.2, mem.1, mem.2, dsk.1, dsk.2, swp.1, swp.2⟩
  | _, _, _, _ => none

/-- Modelled from the spec: deserialization of the `[alerts]` section
(spec section 6). -/
def parseAlertsSection (kvs : List (List Char × List Char)) :
    Option AlertsConfig :=
  match lookupKey kvs "alerts.enable_desktop_notifications" >>= parseTomlBool,
      lookupKey kvs "alerts.enable_email_alerts" >>= parseTomlBool,
      lookupKey kvs "alerts.enable_sound_alerts" >>= parseTomlBool with
  | some edn, some eea, some esa => some ⟨edn, eea, esa⟩
  | _, _, _ => none

/-- Modelled from the spec: the configuration loader on file contents
(`load_config`, main.rs lines 126-134, with `toml::from_str` deserializing the
four sections and their fields; `none` models the parse-failure abort). -/
def load_config_from (s : String) : Option Config :=
  let kvs := parseAssignments (splitOnChar '\n' s.data)
  match parseGeneralSection kvs, parseDisplaySection kvs,
      parseThresholdsSection kvs, parseAlertsSection kvs with
  | some g, some d, some t, some a => some ⟨g, d, t, a⟩
  | _, _, _, _ => none


/-- The if-chain that `classification` computes, in explicit form. -/
theorem classification_eq (v w c : ℚ) :
    classification v w c =
      if c ≤ v then Classification.Critical
      else if w ≤ v then Classification.Warning
      else Classification.Normal := by
  by_cases hc : c ≤ v
  · simp [classification, get_usage_color, hc]
  · by_cases hw : w ≤ v
    · simp [classification, get_usage_color, hc, hw]
    · simp [classification, get_usage_color, hc, hw]

/-- The two alert messages of `check_and_alert` are never equal: their lengths
differ by the four characters between "high" and "critical". -/
theorem high_ne_critical (name : String) (v : ℚ) :
    highMessage name v ≠ criticalMessage name v := by
  intro h
  have h2 := congrArg String.length h
  simp only [highMessage, criticalMessage, String.length_append] at h2
  rw [show (" usage is high: ").length = 16 from rfl,
    show (" usage is critical: ").length = 20 from rfl] at h2
  omega

/-- Claim C1: for thresholds with 0 ≤ warning ≤ critical ≤ 100, the
classification computed by the program (via `get_usage_color` and
`check_and_alert`) is Critical exactly when value ≥ critical, Warning exactly
when warning ≤ value < critical, and Normal exactly when value < warning;
both boundaries are inclusive. -/
theorem classification_spec (name : String) (config : Config) (ts : String)
    (v w c : ℚ) (h0 : 0 ≤ w) (h1 : w ≤ c) (h2 : c ≤ 100) :
    (classification v w c = Classification.Critical ↔ c ≤ v) ∧
    (classification v w c = Classification.Warning ↔ w ≤ v ∧ v < c) ∧
    (classification v w c = Classification.Normal ↔ v < w) ∧
    (get_usage_color v w c true = Color.Red ↔ c ≤ v) ∧
    (get_usage_color v w c true = Color.Yellow ↔ w ≤ v ∧ v < c) ∧
    (get_usage_color v w c true = Color.Green ↔ v < w) ∧
    ((check_and_alert name v w c config ts).warnings =
        [criticalMessage name v] ↔ c ≤ v) ∧
    ((check_and_alert name v w c config ts).warnings =
        [highMessage name v] ↔ w ≤ v ∧ v < c) ∧
    ((check_and_alert name v w c config ts).warnings = [] ↔ v < w) := by
  have hne := high_ne_critical name v
  by_cases hc : c ≤ v
  · have hw : w ≤ v := le_trans h1 hc
    simp [classification_eq, get_usage_color, check_and_alert, log_alert,
      emptyEffect, hc, hw, not_lt.mpr hc, not_lt.mpr hw, hne.symm]
  · by_cases hw : w ≤ v
    · simp [classification_eq, get_usage_color, check_and_alert, log_alert,
        emptyEffect, hc, hw, lt_of_not_le hc, not_lt.mpr hw, hne]
    · simp [classification_eq, get_usage_color, check_and_alert, log_alert,
        emptyEffect, hc, hw, lt_of_not_le hc, lt_of_not_le hw]

/-- Witness for C1 at value 95 against thresholds (70, 90). -/
theorem classification_spec_witness :
    (0 : ℚ) ≤ 70 ∧ (70 : ℚ) ≤ 90 ∧ (90 : ℚ) ≤ 100 ∧
    ((classification 95 70 90 = Classification.Critical ↔ (90 : ℚ) ≤ 95) ∧
     (classification 95 70 90 = Classification.Warning ↔
        (70 : ℚ) ≤ 95 ∧ (95 : ℚ) < 90) ∧
     (classification 95 70 90 = Classification.Normal ↔ (95 : ℚ) < 70) ∧
     (get_usage_color 95 70 90 true = Color.Red ↔ (90 : ℚ) ≤ 95) ∧
     (get_usage_color 95 70 90 true = Color.Yellow ↔
        (70 : ℚ) ≤ 95 ∧ (95 : ℚ) < 90) ∧
     (get_usage_color 95 70 90 true = Color.Green ↔ (95 : ℚ) < 70) ∧
     ((check_and_alert "CPU" 95 70 90 Config.default "ts").warnings =
        [criticalMessage "CPU" 95] ↔ (90 : ℚ) ≤ 95) ∧
     ((check_and_alert "CPU" 95 70 90 Config.default "ts").warnings =
        [highMessage "CPU" 95] ↔ (70 : ℚ) ≤ 95 ∧ (95 : ℚ) < 90) ∧
     ((check_and_alert "CPU" 95 70 90 Config.default "ts").warnings = [] ↔
        (95 : ℚ) < 70)) :=
  ⟨by norm_num, by norm_num, by norm_num,
   classification_spec "CPU" Config.default "ts" 95 70 90 (by norm_num)
     (by norm_num) (by norm_num)⟩

/-- Claim C2: under an inverted threshold pair (warning > critical) the
classification is never Warning, and `check_and_alert` never emits the
"high" (warning-severity) message: only the critical message or nothing. -/
theorem inverted_pair_never_warning (name : String) (config : Config)
    (ts : String) (v w c : ℚ) (h : c < w) :
    classification v w c ≠ Classification.Warning ∧
    ((check_and_alert name v w c config ts).warnings = [] ∨
      (check_and_alert name v w c config ts).warnings =
        [criticalMessage name v]) ∧
    (check_and_alert name v w c config ts).warnings ≠
      [highMessage name v] := by
  have hne := high_ne_critical name v
  by_cases hc : c ≤ v
  · simp [classification_eq, check_and_alert, log_alert, hc, hne.symm]
  · have hw : ¬ w ≤ v := fun hle => hc (le_trans h.le hle)
    simp [classification_eq, check_and_alert, emptyEffect, hc, hw]

/-- Witness for C2 with the inverted pair (warning, critical) = (90, 70) at
value 80. -/
theorem inverted_pair_never_warning_witness :
    (70 : ℚ) < 90 ∧
    (classification 80 90 70 ≠ Classification.Warning ∧
     ((check_and_alert "CPU" 80 90 70 Config.default "ts").warnings = [] ∨
       (check_and_alert "CPU" 80 90 70 Config.default "ts").warnings =
         [criticalMessage "CPU" 80]) ∧
     (check_and_alert "CPU" 80 90 70 Config.default "ts").warnings ≠
       [highMessage "CPU" 80]) :=
  ⟨by norm_num,
   inverted_pair_never_warning "CPU" Config.default "ts" 80 90 70 (by norm_num)⟩

/-- Claim C3: with zero total swap the swap section performs no alert check
and renders the literal "Not Available" line, whatever the configuration, and
a disk with zero total space has usage 0 (no division by zero). -/
theorem swap_absent_disk_zero (used_swap : ℕ) (config : Config) (ts : String) :
    (swap_section 0 used_swap config ts).checked = false ∧
    (swap_section 0 used_swap config ts).alerts = emptyEffect ∧
    (swap_section 0 used_swap config ts).line =
      some "Swap Usage: Not Available" ∧
    ∀ available_space : ℕ, disk_usage 0 available_space = 0 := by
  refine ⟨by simp [swap_section], by simp [swap_section], by simp [swap_section],
    fun available_space => by simp [disk_usage]⟩

/-- Claim C4: `log_alert` always emits the message on the runtime warning
channel, and appends the timestamped "ALERT" line to the configured log file
exactly when `general.log_alerts` is true. -/
theorem log_alert_effects (message : String) (config : Config) (ts : String) :
    (log_alert message config ts).warnings = [message] ∧
    ((log_alert message config ts).fileAppends =
        [(config.general.log_file, "[" ++ ts ++ "] ALERT: " ++ message ++ "\n")]
      ↔ config.general.log_alerts = true) ∧
    ((log_alert message config ts).fileAppends = [] ↔
      config.general.log_alerts = false) := by
  cases h : config.general.log_alerts <;> simp [log_alert, h]

/-- The process comparator is transitive. -/
theorem processLE_trans (a b c : ProcessInfo) (h1 : processLE a b)
    (h2 : processLE b c) : processLE a c := by
  simp only [processLE, decide_eq_true_eq] at h1 h2 ⊢
  exact le_trans h2 h1

/-- The process comparator is total. -/
theorem processLE_total (a b : ProcessInfo) : processLE a b || processLE b a := by
  simp only [processLE, Bool.or_eq_true, decide_eq_true_eq]
  exact le_total _ _

/-- Claim C5: the rendered top-processes list has at most
`max_processes_to_display` entries and is sorted by descending CPU usage;
two processes with equal CPU usage keep their provider order (stability). -/
theorem top_processes_spec (procs : List ProcessInfo) (maxN : ℕ) :
    (top_processes procs maxN).length ≤ maxN ∧
    (top_processes procs maxN).Pairwise
      (fun a b => b.cpu_usage ≤ a.cpu_usage) ∧
    (∀ a b : ProcessInfo, a.cpu_usage = b.cpu_usage →
      [a, b].Sublist procs → [a, b].Sublist (sorted_processes procs)) := by
  refine ⟨?_, ?_, ?_⟩
  · simp only [top_processes, List.length_take]
    exact min_le_left _ _
  · have hs := @List.sorted_mergeSort ProcessInfo processLE processLE_trans
      processLE_total procs
    have ht : (top_processes procs maxN).Sublist (sorted_processes procs) :=
      List.take_sublist _ _
    exact (List.Pairwise.sublist ht hs).imp
      (fun h => by simpa [processLE, decide_eq_true_eq] using h)
  · intro a b hab hsub
    refine List.pair_sublist_mergeSort processLE_trans processLE_total ?_ hsub
    simp [processLE, hab]

/-- Each character of the decimal-digit rendering is a digit, hence never a
bar glyph. -/
theorem digitChar_not_glyph (d : ℕ) (h : d < 10) :
    Nat.digitChar d ≠ '#' ∧ Nat.digitChar d ≠ '-' := by
  interval_cases d <;> decide

/-- No character produced by `natCharsAux` is a bar glyph. -/
theorem natCharsAux_not_glyph (fuel : ℕ) :
    ∀ n : ℕ, ∀ ch ∈ natCharsAux fuel n, ch ≠ '#' ∧ ch ≠ '-' := by
  induction fuel with
  | zero => intro n ch h; simp [natCharsAux] at h
  | succ f ih =>
    intro n ch h
    rw [natCharsAux] at h
    by_cases h10 : n < 10
    · rw [if_pos h10] at h
      rcases List.mem_singleton.mp h with rfl
      exact digitChar_not_glyph n h10
    · rw [if_neg h10] at h
      rcases List.mem_append.mp h with h | h
      · exact ih _ ch h
      · rcases List.mem_singleton.mp h with rfl
        exact digitChar_not_glyph (n % 10) (Nat.mod_lt _ (by norm_num))

/-- No character of a rendered natural number is a bar glyph. -/
theorem natChars_not_glyph (n : ℕ) :
    ∀ ch ∈ natChars n, ch ≠ '#' ∧ ch ≠ '-' :=
  natCharsAux_not_glyph (n + 1) n

/-- Character counts distribute over string append. -/
theorem countChar_append (a b : String) (ch : Char) :
    countChar (a ++ b) ch = countChar a ch + countChar b ch := by
  simp [countChar, String.data_append]

/-- A nonnegative value formats with neither bar glyph: its characters are
digits and the decimal point. -/
theorem fmt1_count_glyph (q : ℚ) (h : 0 ≤ q) (ch : Char)
    (hch : ch = '#' ∨ ch = '-') : countChar (fmt1 q) ch = 0 := by
  rw [fmt1]
  simp only [if_neg (not_lt.mpr h)]
  generalize (⌊|q| * 10 + 1 / 2⌋).toNat = t
  rw [countChar_append, countChar_append, countChar_append]
  have hd := digitChar_not_glyph (t % 10) (Nat.mod_lt _ (by norm_num))
  have h1 : countChar (String.mk (natChars (t / 10))) ch = 0 := by
    refine List.count_eq_zero.mpr (fun hm => ?_)
    rcases hch with rfl | rfl
    · exact (natChars_not_glyph _ _ hm).1 rfl
    · exact (natChars_not_glyph _ _ hm).2 rfl
  have h2 : countChar (String.mk [Nat.digitChar (t % 10)]) ch = 0 := by
    refine List.count_eq_zero.mpr (fun hm => ?_)
    rcases hch with rfl | rfl
    · exact hd.1 (List.mem_singleton.mp hm).symm
    · exact hd.2 (List.mem_singleton.mp hm).symm
  rw [h1, h2]
  rcases hch with rfl | rfl <;> decide

/-- Padding with spaces adds no occurrences of a non-space character. -/
theorem pad6_count (s : String) (ch : Char) (hch : ch ≠ ' ') :
    countChar (pad6 s) ch = countChar s ch := by
  rw [pad6, countChar_append]
  have : countChar (String.mk (List.replicate (6 - s.length) ' ')) ch = 0 := by
    simp only [countChar]
    rw [List.count_replicate]
    simp [Ne.symm hch]
  omega

/-- The color escape codes contain no bar glyph. -/
theorem color_code_count (col : Color) (ch : Char) (h : ch = '#' ∨ ch = '-') :
    countChar (color_code col) ch = 0 := by
  rcases h with rfl | rfl <;> cases col <;> decide

/-- Claim C7: with colors disabled the bar is exactly the bracketed
right-aligned one-decimal percentage, with no bar glyphs. -/
theorem plain_bar_format (v w c : ℚ) (h : 0 ≤ v) :
    create_progress_bar v w c false = some ("[" ++ pad6 (fmt1 v) ++ "%]") ∧
    countChar ("[" ++ pad6 (fmt1 v) ++ "%]") '#' = 0 ∧
    countChar ("[" ++ pad6 (fmt1 v) ++ "%]") '-' = 0 ∧
    6 ≤ (pad6 (fmt1 v)).length := by
  refine ⟨rfl, ?_, ?_, ?_⟩
  · rw [countChar_append, countChar_append,
      pad6_count _ _ (by decide), fmt1_count_glyph v h '#' (Or.inl rfl)]
    decide
  · rw [countChar_append, countChar_append,
      pad6_count _ _ (by decide), fmt1_count_glyph v h '-' (Or.inr rfl)]
    decide
  · rw [pad6]
    simp only [String.length_append, String.length_mk, List.length_replicate]
    omega

/-- Witness for C7 at value 50: the rendered text is exactly "[  50.0%]". -/
theorem plain_bar_format_witness :
    (0 : ℚ) ≤ 50 ∧
    (create_progress_bar 50 70 90 false = some ("[" ++ pad6 (fmt1 50) ++ "%]") ∧
     countChar ("[" ++ pad6 (fmt1 50) ++ "%]") '#' = 0 ∧
     countChar ("[" ++ pad6 (fmt1 50) ++ "%]") '-' = 0 ∧
     6 ≤ (pad6 (fmt1 50)).length) ∧
    fmt1 50 = "50.0" := by
  refine ⟨by norm_num, plain_bar_format 50 70 90 (by norm_num), ?_⟩
  have hfl500 : (⌊|(50 : ℚ)| * 10 + 1 / 2⌋) = 500 := by norm_num
  have h500 : ((⌊|(50 : ℚ)| * 10 + 1 / 2⌋).toNat) = 500 := by rw [hfl500]; rfl
  rw [fmt1]
  norm_num [h500]
  decide

/-- The string produced by the colored branch of `create_progress_bar`. -/
def bar_output (v w c : ℚ) : String :=
  "[" ++ colorize (get_usage_color v w c true)
      (String.mk (List.replicate (filled_length v) '#') ++
        String.mk (List.replicate (20 - filled_length v) '-')) ++
    "] " ++ pad6 (fmt1 v) ++ "%"

/-- For values up to 100 the bar never overfills. -/
theorem filled_length_le (v : ℚ) (h : v < 105) : filled_length v ≤ 20 := by
  rw [filled_length]
  have hq : (v / 100 * 20 : ℚ) < 21 := by linarith
  have hf : ⌊(v / 100 * 20 : ℚ)⌋ < 21 :=
    Int.floor_lt.mpr (by push_cast; linarith)
  omega

/-- Claim C6: with colors enabled the bar has exactly
floor(value/100 * 20) filled cells and the remaining cells of the fixed
20-cell width unfilled. -/
theorem colored_bar_fill (v w c : ℚ) (h0 : 0 ≤ v) (h1 : v ≤ 100) :
    create_progress_bar v w c true = some (bar_output v w c) ∧
    countChar (bar_output v w c) '#' = filled_length v ∧
    countChar (bar_output v w c) '-' = 20 - filled_length v ∧
    countChar (bar_output v w c) '#' + countChar (bar_output v w c) '-' = 20 := by
  have hfl : filled_length v ≤ 20 := filled_length_le v (by linarith)
  have hhash : countChar (bar_output v w c) '#' = filled_length v := by
    rw [bar_output, colorize]
    rw [countChar_append, countChar_append, countChar_append, countChar_append,
      countChar_append, countChar_append,
      pad6_count _ _ (by decide), fmt1_count_glyph v h0 '#' (Or.inl rfl),
      color_code_count _ _ (Or.inl rfl)]
    simp only [countChar, String.data_append, List.count_append]
    rw [List.count_replicate_self, List.count_replicate, if_neg (by decide)]
    norm_num [show List.count '#' "[".data = 0 from by decide,
      show List.count '#' "\x1b[0m".data = 0 from by decide,
      show List.count '#' "] ".data = 0 from by decide,
      show List.count '#' "%".data = 0 from by decide]
  have hdash : countChar (bar_output v w c) '-' = 20 - filled_length v := by
    rw [bar_output, colorize]
    rw [countChar_append, countChar_append, countChar_append, countChar_append,
      countChar_append, countChar_append,
      pad6_count _ _ (by decide), fmt1_count_glyph v h0 '-' (Or.inr rfl),
      color_code_count _ _ (Or.inr rfl)]
    simp only [countChar, String.data_append, List.count_append]
    rw [List.count_replicate_self, List.count_replicate, if_neg (by decide)]
    norm_num [show List.count '-' "[".data = 0 from by decide,
      show List.count '-' "\x1b[0m".data = 0 from by decide,
      show List.count '-' "] ".data = 0 from by decide,
      show List.count '-' "%".data = 0 from by decide]
  refine ⟨?_, hhash, hdash, by omega⟩
  rw [create_progress_bar, bar_output]
  simp only [Bool.not_true, Bool.false_eq_true, if_false, if_pos hfl]

/-- Witness for C6 at the three values named by the spec: 50 gives 10 filled
and 10 empty cells, 100 gives 20 filled and 0 empty, 0 gives 0 filled and 20
empty. -/
theorem colored_bar_fill_witness :
    (countChar (bar_output 50 70 90) '#' = 10 ∧
      countChar (bar_output 50 70 90) '-' = 10 ∧
      create_progress_bar 50 70 90 true = some (bar_output 50 70 90)) ∧
    (countChar (bar_output 100 70 90) '#' = 20 ∧
      countChar (bar_output 100 70 90) '-' = 0 ∧
      create_progress_bar 100 70 90 true = some (bar_output 100 70 90)) ∧
    (countChar (bar_output 0 70 90) '#' = 0 ∧
      countChar (bar_output 0 70 90) '-' = 20 ∧
      create_progress_bar 0 70 90 true = some (bar_output 0 70 90)) := by
  have e50 : ⌊(50 : ℚ) / 100 * 20⌋ = 10 := by norm_num
  have h50 : filled_length 50 = 10 := by rw [filled_length, e50]; rfl
  have e100 : ⌊(100 : ℚ) / 100 * 20⌋ = 20 := by norm_num
  have h100 : filled_length 100 = 20 := by rw [filled_length, e100]; rfl
  have e0 : ⌊(0 : ℚ) / 100 * 20⌋ = 0 := by norm_num
  have h0 : filled_length 0 = 0 := by rw [filled_length, e0]; rfl
  obtain ⟨a1, a2, a3, -⟩ := colored_bar_fill 50 70 90 (by norm_num) (by norm_num)
  obtain ⟨b1, b2, b3, -⟩ := colored_bar_fill 100 70 90 (by norm_num) (by norm_num)
  obtain ⟨c1, c2, c3, -⟩ := colored_bar_fill 0 70 90 (by norm_num) (by norm_num)
  rw [h50] at a2 a3
  rw [h100] at b2 b3
  rw [h0] at c2 c3
  exact ⟨⟨a2, a3, a1⟩, ⟨b2, b3, b1⟩, ⟨c2, c3, c1⟩⟩

/-- Claim C8: with `once = true` the monitor performs exactly one cycle — one
refresh and one display (classify/alert and render) — and never sleeps,
independent of the available fuel. -/
theorem once_mode_single_cycle (config : Config) (fuel : ℕ) :
    run_monitor config true (fuel + 1) =
      [MonitorEvent.refresh, MonitorEvent.display] ∧
    (run_monitor config true (fuel + 1)).count MonitorEvent.display = 1 ∧
    (run_monitor config true (fuel + 1)).count MonitorEvent.refresh = 1 ∧
    ∀ secs : ℕ, MonitorEvent.sleep secs ∉ run_monitor config true (fuel + 1) := by
  refine ⟨rfl, by simp [run_monitor], by simp [run_monitor], fun secs => ?_⟩
  simp [run_monitor]

set_option maxRecDepth 100000 in
/-- Claim C9: the file written by `generate-config` (the serialized default
configuration), read back through the configuration loader, yields exactly
the default configuration: the round-trip preserves every field. -/
theorem generate_config_round_trip :
    load_config_from (configToToml Config.default) = some Config.default := by
  decide

/-- Counterexample to claim C10 as stated: at usage 150 (a value above 100)
the filled length is 30, which exceeds the bar width 20, so the unsigned
subtraction underflows and `create_progress_bar` panics instead of returning
a string. -/
theorem bar_overflow_at_150 :
    filled_length 150 = 30 ∧ ¬ filled_length 150 ≤ 20 ∧
    create_progress_bar 150 70 90 true = none := by
  have e150 : ⌊(150 : ℚ) / 100 * 20⌋ = 30 := by norm_num
  have h : filled_length 150 = 30 := by rw [filled_length, e150]; rfl
  refine ⟨h, by omega, ?_⟩
  rw [create_progress_bar]
  simp [h]

/-- Claim C10 (amended): for usage values below 105 — in particular for every
percentage in [0, 100] — the filled length never exceeds the width 20, the
unsigned subtraction cannot underflow, and `create_progress_bar` returns a
string. -/
theorem bar_total_below_105 (v w c : ℚ) (h : v < 105) :
    filled_length v ≤ 20 ∧ create_progress_bar v w c true ≠ none := by
  have hfl := filled_length_le v h
  refine ⟨hfl, ?_⟩
  rw [create_progress_bar]
  simp [if_pos hfl]

/-- Witness for the amended C10 at usage 100. -/
theorem bar_total_below_105_witness :
    (100 : ℚ) < 105 ∧ filled_length 100 ≤ 20 ∧
    create_progress_bar 100 70 90 true ≠ none :=
  ⟨by norm_num, (bar_total_below_105 100 70 90 (by norm_num)).1,
   (bar_total_below_105 100 70 90 (by norm_num)).2⟩

end SystemMonitor
